import Mathlib

/-!
Verification development for the Friday voice-assistant core
(`src/main.py` and `src/Backend/brain.py`).

The definitions below are a shallow embedding of the session state machine
of `AudioLoop.receive_audio`, the mute-state store `AudioStateManager`,
the audio transmitter `AudioLoop.send_realtime`, the shutdown flush
`AudioLoop._save_final_chatlogs`, and the tool dispatcher
`GeminiBrain.execute_tool`.  Effectful collaborators (the model transport,
handlers, the file system) are passed in as explicit oracles; Python
exceptions are modelled with `Except`.
-/

/-- Models Python `str.lower()` (ASCII case folding on the character list). -/
def pyLower (s : String) : String := ⟨s.data.map Char.toLower⟩

/-- Models Python `str.strip()`: drop whitespace from both ends. -/
def pyStrip (s : String) : String :=
  ⟨((s.data.dropWhile Char.isWhitespace).reverse.dropWhile Char.isWhitespace).reverse⟩

/-- `phrase in text` of Python: contiguous-substring containment,
decided on the underlying character lists. -/
def pyContains (phrase text : String) : Bool := decide (phrase.data <:+: text.data)

/-- A tool result dictionary as produced by `GeminiBrain.execute_tool`:
every branch yields a mapping with a `status` field and (in the cases the
claims are about) a `message` field.  Extra payload fields (file paths,
contacts, ...) are irrelevant to the claims and elided. -/
structure ToolResult where
  status : String
  message : String
  deriving DecidableEq, Repr

/-- The exact set of function names handled by the `if/elif` dispatch chain
of `GeminiBrain.execute_tool` (src/Backend/brain.py lines 893-1234). -/
def knownToolNames : List String :=
  ["get_weather", "internet_search", "email_send", "email_read", "email_delete",
   "email_reply", "telegram_send_message", "telegram_send_file", "telegram_get_updates",
   "generate_image", "generate_pdf", "generate_word", "generate_ppt", "generate_excel",
   "convert_document", "convert_active_doc", "open_app", "close_app", "manage_window",
   "set_volume", "set_brightness", "get_brightness", "change_theme", "type_text",
   "move_mouse", "click_mouse", "get_mouse_position", "set_clipboard", "get_clipboard",
   "take_screenshot", "system_power", "google_search", "youtube_search", "play_youtube",
   "generate_content", "create_folder", "add_contact", "update_contact", "find_contact",
   "list_contacts", "delete_contact", "convert_file_format", "compress_file",
   "open_website_direct", "type_formatted_text", "system_power_secure",
   "access_file_content", "search_data_folder", "get_accessible_paths",
   "get_last_generated_file", "get_last_converted_file", "recall_chat_history",
   "switch_groq_key", "switch_google_key"]

/-- `GeminiBrain.execute_tool` (src/Backend/brain.py lines 882-1250).
`handlers` is the oracle giving the behaviour of the matched branch body:
`.ok r` when the branch computes a result dictionary `r`, `.error e` when
the branch raises a Python exception carrying message `e`.  The
surrounding `try` converts a raised exception into the
`Error executing <name>: <msg>` result (lines 1242-1247); a name matched
by no branch falls to the `else` at line 1237 and yields the
`Unknown function: <name>` result. -/
def execute_tool {Args : Type} (handlers : String → Args → Except String ToolResult)
    (function_name : String) (args : Args) : ToolResult :=
  if function_name ∈ knownToolNames then
    match handlers function_name args with
    | .ok r => r
    | .error e =>
        { status := "error", message := "Error executing " ++ function_name ++ ": " ++ e }
  else
    { status := "error", message := "Unknown function: " ++ function_name }

/-- A tool-response event transmitted back over the live session, as built
at src/main.py lines 1501-1507. -/
structure ToolResponseEvent where
  id : String
  name : String
  response : ToolResult
  deriving DecidableEq, Repr

/-- The per-function-call handling of a tool-call event inside
`AudioLoop.receive_audio` (src/main.py lines 1476-1515).  `dispatch` is
the outcome of `await asyncio.to_thread(brain.execute_tool, ...)`
(`.error` when that await raises); `send` is the outcome of
`await self.session.send_tool_response(...)` on the constructed event
(`.error` when the transmission raises).  Returns the list of
tool-response events actually transmitted for this call.  Both `except`
arms (lines 1510-1512 and 1513-1515) only log, so a failing dispatch or a
failing transmission produces no response event. -/
def handle_function_call (function_id function_name : String)
    (dispatch : Except String ToolResult)
    (send : ToolResponseEvent → Except String Unit) : List ToolResponseEvent :=
  match dispatch with
  | .error _ => []
  | .ok result =>
      let ev : ToolResponseEvent := ⟨function_id, function_name, result⟩
      match send ev with
      | .ok _ => [ev]
      | .error _ => []

/-- The speaker of a durable transcript line (`Logger.log_chat` role). -/
inductive Role
  | user
  | assistant
  deriving DecidableEq, Repr

/-- One line appended to the durable transcript log by `Logger.log_chat`. -/
structure ChatLine where
  role : Role
  content : String
  deriving DecidableEq, Repr

/-- The session state carried by `AudioLoop` that the receive loop reads and
writes (src/main.py lines 1124-1161): the per-turn text accumulators, the
duplicate-suppression trackers, the speaking/stop/mute/shutdown flags, the
inbound audio queue of not-yet-played chunks (payloads elided to `Nat`),
and the collected session messages.  `is_muted` mirrors the value the
`is_muted` property reads from the state manager. -/
structure LoopState where
  current_turn_user_text : String
  user_speech_buffer : String
  current_turn_assistant_text : String
  current_text_buffer : String
  last_logged_user_text : String
  last_logged_assistant_text : String
  is_assistant_speaking : Bool
  is_muted : Bool
  should_stop_speaking : Bool
  shutdown_initiated : Bool
  audio_in_queue : List Nat
  session_messages : List (String × String)
  deriving DecidableEq, Repr

/-- The freshly constructed `AudioLoop` state (`__init__`, with the mute
default `True` loaded by the state manager when no state file exists). -/
def initLoopState : LoopState :=
  { current_turn_user_text := ""
    user_speech_buffer := ""
    current_turn_assistant_text := ""
    current_text_buffer := ""
    last_logged_user_text := ""
    last_logged_assistant_text := ""
    is_assistant_speaking := false
    is_muted := true
    should_stop_speaking := false
    shutdown_initiated := false
    audio_in_queue := []
    session_messages := [] }

/-- How the receive loop leaves one input-transcription fragment. -/
inductive FragmentOutcome
  | interrupted
  | ignoredWhileSpeaking
  | shutdownCommand
  | accumulated
  deriving DecidableEq, Repr

/-- The stop-phrase list of src/main.py line 1445; `assistantname` is the
already-lowercased assistant name. -/
def stop_phrases (assistantname : String) : List String :=
  ["stop", assistantname ++ " stop", "jarvis stop", "friday stop"]

/-- The `any(phrase in user_text_lower for phrase in stop_phrases)` test of
src/main.py line 1446. -/
def matchesStopPhrase (assistantname user_text_lower : String) : Bool :=
  (stop_phrases assistantname).any (fun p => pyContains p user_text_lower)

/-- The input-transcription handling of `AudioLoop.receive_audio`
(src/main.py lines 1430-1470).  The fragment is first written into both
`user_speech_buffer` and `current_turn_user_text` (lines 1436-1437); the
voice-interrupt gate fires only while the assistant is speaking with the
mic unmuted (line 1443): a stop-phrase match sets the stop flag, clears
the speaking flag and purges the inbound audio queue (lines 1448-1455),
while any other fragment is skipped by `continue` (line 1462).  Only when
that gate is closed is the shutdown-phrase pair checked (line 1465);
otherwise the fragment is simply left accumulated.  `assistantname` is
the raw `Assistantname` environment value (default `Friday`), lowercased
at line 1440. -/
def handle_input_transcription (assistantname : String) (s : LoopState)
    (user_text : String) : LoopState × FragmentOutcome :=
  let s1 := { s with user_speech_buffer := user_text, current_turn_user_text := user_text }
  let user_text_lower := pyLower user_text
  if s1.is_assistant_speaking && !s1.is_muted then
    if matchesStopPhrase (pyLower assistantname) user_text_lower then
      ({ s1 with should_stop_speaking := true, is_assistant_speaking := false,
                 audio_in_queue := [] }, .interrupted)
    else
      (s1, .ignoredWhileSpeaking)
  else if pyContains "shutdown friday" user_text_lower
       || pyContains "exit friday" user_text_lower then
    ({ s1 with shutdown_initiated := true }, .shutdownCommand)
  else
    (s1, .accumulated)

/-- The user half of the end-of-turn flush (src/main.py lines 1530-1563):
a non-blank accumulated user text is logged once unless it equals the last
logged user text; both user buffers are cleared only inside the non-blank
branch. -/
def flushUser (s : LoopState) : LoopState × List ChatLine :=
  if pyStrip s.current_turn_user_text = "" then (s, [])
  else if pyStrip s.current_turn_user_text = s.last_logged_user_text then
    ({ s with current_turn_user_text := "", user_speech_buffer := "" }, [])
  else
    ({ s with last_logged_user_text := pyStrip s.current_turn_user_text,
              session_messages :=
                s.session_messages ++ [("user", pyStrip s.current_turn_user_text)],
              current_turn_user_text := "",
              user_speech_buffer := "" },
     [⟨Role.user, pyStrip s.current_turn_user_text⟩])

/-- The assistant half of the end-of-turn flush (src/main.py lines
1566-1597), symmetric to `flushUser`. -/
def flushAssistant (s : LoopState) : LoopState × List ChatLine :=
  if pyStrip s.current_turn_assistant_text = "" then (s, [])
  else if pyStrip s.current_turn_assistant_text = s.last_logged_assistant_text then
    ({ s with current_turn_assistant_text := "", current_text_buffer := "" }, [])
  else
    ({ s with last_logged_assistant_text := pyStrip s.current_turn_assistant_text,
              session_messages :=
                s.session_messages ++ [("assistant", pyStrip s.current_turn_assistant_text)],
              current_turn_assistant_text := "",
              current_text_buffer := "" },
     [⟨Role.assistant, pyStrip s.current_turn_assistant_text⟩])

/-- The complete end-of-turn flush of `AudioLoop.receive_audio`
(src/main.py lines 1530-1619): user block, then assistant block, then the
speaking/stop flags are reset and the inbound audio queue is drained.
Returns the new state together with the transcript lines logged. -/
def flushTurn (s : LoopState) : LoopState × List ChatLine :=
  let u := flushUser s
  let a := flushAssistant u.1
  ({ a.1 with is_assistant_speaking := false, should_stop_speaking := false,
              audio_in_queue := [] }, u.2 ++ a.2)

/-- `AudioLoop._save_final_chatlogs` (src/main.py lines 1731-1763), run
from the `finally` block of `AudioLoop.run` (line 1905).  Four blocks each
log one transcript line when their buffer is non-blank and differs from
the last logged text for that role.  The first two blocks, after calling
`Logger.log_chat`, append to `self.all_user_messages` (line 1741) resp.
`self.all_assistant_messages` (line 1749); those attributes are assigned
nowhere in the program (`AudioLoop.__init__` does not create them), so the
append raises `AttributeError`, which the enclosing `try/except`
(lines 1733 and 1762) catches — the method then returns with every later
block skipped, keeping only the lines already written.  The two fallback
blocks contain no such append and run only when neither turn-accumulator
block fired. -/
def save_final_chatlogs (s : LoopState) : List ChatLine :=
  if pyStrip s.current_turn_user_text ≠ "" ∧
     pyStrip s.current_turn_user_text ≠ s.last_logged_user_text then
    [⟨Role.user, pyStrip s.current_turn_user_text⟩]
  else if pyStrip s.current_turn_assistant_text ≠ "" ∧
          pyStrip s.current_turn_assistant_text ≠ s.last_logged_assistant_text then
    [⟨Role.assistant, pyStrip s.current_turn_assistant_text⟩]
  else
    (if pyStrip s.user_speech_buffer ≠ "" ∧
        pyStrip s.user_speech_buffer ≠ s.last_logged_user_text then
      [⟨Role.user, pyStrip s.user_speech_buffer⟩] else [])
    ++ (if pyStrip s.current_text_buffer ≠ "" ∧
           pyStrip s.current_text_buffer ≠ s.last_logged_assistant_text then
      [⟨Role.assistant, pyStrip s.current_text_buffer⟩] else [])

/-- The mute store of `AudioStateManager` (src/main.py lines 965-1102):
the in-memory flag `_is_muted`, the durable copy held in the
`mute_state.txt` file (the file write of `_save_mute_state` is modelled
as succeeding), and the `_last_state_change` timestamp used for the
debounce.  Time is modelled with rationals, matching the event-loop
float seconds. -/
structure MuteStore where
  is_muted : Bool
  file_muted : Bool
  last_state_change : ℚ
  deriving DecidableEq, Repr

/-- The result dictionary of the awaitable `set_mute_state`: either the
change was applied (old and new state recorded), or it was rejected by the
debounce with the `Too frequent toggles` error carrying the unchanged
current state. -/
inductive SetMuteResult
  | applied (old_state new_state : Bool)
  | rejected (error : String) (current_state : Bool)
  deriving DecidableEq, Repr

/-- `AudioStateManager.set_mute_state` (src/main.py lines 1048-1098): a
request arriving within 0.2 seconds of the previous applied change is
rejected; otherwise the in-memory flag, the timestamp and the durable
file are all updated.  The audio-loop resynchronisation and the
subscriber callbacks touch no field of this store and are elided. -/
def set_mute_state (s : MuteStore) (muted : Bool) (current_time : ℚ) :
    MuteStore × SetMuteResult :=
  if current_time - s.last_state_change < 1/5 then
    (s, .rejected "Too frequent toggles" s.is_muted)
  else
    ({ is_muted := muted, file_muted := muted, last_state_change := current_time },
     .applied s.is_muted muted)

/-- `AudioStateManager.set_mute_state_sync` (src/main.py lines 1004-1025):
no debounce check at all — the in-memory flag and the durable file are
written unconditionally and `_last_state_change` is reset to 0; the
returned Bool is the save success (the file write is modelled as
succeeding). -/
def set_mute_state_sync (_s : MuteStore) (muted : Bool) : MuteStore × Bool :=
  ({ is_muted := muted, file_muted := muted, last_state_change := 0 }, true)

/-- Runs a sequence of timestamped requests through the awaitable
`set_mute_state` (requests serialise on `_state_lock`). -/
def applyMuteRequests (s : MuteStore) : List (ℚ × Bool) → MuteStore × List SetMuteResult
  | [] => (s, [])
  | (t, m) :: rest =>
      let step := set_mute_state s m t
      let tail := applyMuteRequests step.1 rest
      (tail.1, step.2 :: tail.2)

/-- The state read by one iteration of `AudioLoop.send_realtime`:
the two gate flags and whether `self.session` is set. -/
structure SendState where
  is_muted : Bool
  is_assistant_speaking : Bool
  session_connected : Bool
  deriving DecidableEq, Repr

/-- One iteration of `AudioLoop.send_realtime` after dequeuing `msg` from
the outbound queue (src/main.py lines 1268-1279): the mute/speaking gate
is re-evaluated at send time and the frame is transmitted only when it is
open and a session exists; otherwise the frame is silently discarded.
Returns the frame given to `session.send_realtime_input`, if any. -/
def send_realtime_step {Frame : Type} (s : SendState) (msg : Frame) : Option Frame :=
  if !s.is_muted && !s.is_assistant_speaking then
    if s.session_connected then some msg else none
  else none

/-! ## Helper lemmas -/

theorem flushUser_case_blank (s : LoopState) (h : pyStrip s.current_turn_user_text = "") :
    flushUser s = (s, []) := by
  simp [flushUser, h]

theorem flushUser_case_dup (s : LoopState) (h0 : pyStrip s.current_turn_user_text ≠ "")
    (h1 : pyStrip s.current_turn_user_text = s.last_logged_user_text) :
    flushUser s = ({ s with current_turn_user_text := "", user_speech_buffer := "" }, []) := by
  unfold flushUser
  rw [if_neg h0, if_pos h1]

theorem flushUser_case_log (s : LoopState) (h0 : pyStrip s.current_turn_user_text ≠ "")
    (h1 : pyStrip s.current_turn_user_text ≠ s.last_logged_user_text) :
    flushUser s =
      ({ s with last_logged_user_text := pyStrip s.current_turn_user_text,
                session_messages :=
                  s.session_messages ++ [("user", pyStrip s.current_turn_user_text)],
                current_turn_user_text := "", user_speech_buffer := "" },
       [⟨Role.user, pyStrip s.current_turn_user_text⟩]) := by
  unfold flushUser
  rw [if_neg h0, if_neg h1]

theorem flushAssistant_case_blank (s : LoopState)
    (h : pyStrip s.current_turn_assistant_text = "") :
    flushAssistant s = (s, []) := by
  simp [flushAssistant, h]

theorem flushAssistant_case_dup (s : LoopState)
    (h0 : pyStrip s.current_turn_assistant_text ≠ "")
    (h1 : pyStrip s.current_turn_assistant_text = s.last_logged_assistant_text) :
    flushAssistant s =
      ({ s with current_turn_assistant_text := "", current_text_buffer := "" }, []) := by
  unfold flushAssistant
  rw [if_neg h0, if_pos h1]

theorem flushAssistant_case_log (s : LoopState)
    (h0 : pyStrip s.current_turn_assistant_text ≠ "")
    (h1 : pyStrip s.current_turn_assistant_text ≠ s.last_logged_assistant_text) :
    flushAssistant s =
      ({ s with last_logged_assistant_text := pyStrip s.current_turn_assistant_text,
                session_messages :=
                  s.session_messages ++ [("assistant", pyStrip s.current_turn_assistant_text)],
                current_turn_assistant_text := "", current_text_buffer := "" },
       [⟨Role.assistant, pyStrip s.current_turn_assistant_text⟩]) := by
  unfold flushAssistant
  rw [if_neg h0, if_neg h1]

theorem flushTurn_eq (s : LoopState) :
    flushTurn s =
      ({ (flushAssistant (flushUser s).1).1 with
          is_assistant_speaking := false, should_stop_speaking := false,
          audio_in_queue := [] },
       (flushUser s).2 ++ (flushAssistant (flushUser s).1).2) := rfl

theorem flushUser_keeps_assistant_fields (s : LoopState) :
    (flushUser s).1.current_turn_assistant_text = s.current_turn_assistant_text
    ∧ (flushUser s).1.current_text_buffer = s.current_text_buffer
    ∧ (flushUser s).1.last_logged_assistant_text = s.last_logged_assistant_text := by
  unfold flushUser
  split_ifs <;> simp

theorem flushAssistant_keeps_user_fields (s : LoopState) :
    (flushAssistant s).1.current_turn_user_text = s.current_turn_user_text
    ∧ (flushAssistant s).1.user_speech_buffer = s.user_speech_buffer
    ∧ (flushAssistant s).1.last_logged_user_text = s.last_logged_user_text := by
  unfold flushAssistant
  split_ifs <;> simp

theorem flushUser_lines (s : LoopState) :
    (flushUser s).2 = []
    ∨ ((flushUser s).2 = [⟨Role.user, pyStrip s.current_turn_user_text⟩]
       ∧ pyStrip s.current_turn_user_text ≠ ""
       ∧ pyStrip s.current_turn_user_text ≠ s.last_logged_user_text) := by
  by_cases h0 : pyStrip s.current_turn_user_text = ""
  · exact Or.inl (by simp [flushUser_case_blank s h0])
  by_cases h1 : pyStrip s.current_turn_user_text = s.last_logged_user_text
  · exact Or.inl (by simp [flushUser_case_dup s h0 h1])
  · exact Or.inr ⟨by simp [flushUser_case_log s h0 h1], h0, h1⟩

theorem flushAssistant_lines (s : LoopState) :
    (flushAssistant s).2 = []
    ∨ ((flushAssistant s).2 = [⟨Role.assistant, pyStrip s.current_turn_assistant_text⟩]
       ∧ pyStrip s.current_turn_assistant_text ≠ ""
       ∧ pyStrip s.current_turn_assistant_text ≠ s.last_logged_assistant_text) := by
  by_cases h0 : pyStrip s.current_turn_assistant_text = ""
  · exact Or.inl (by simp [flushAssistant_case_blank s h0])
  by_cases h1 : pyStrip s.current_turn_assistant_text = s.last_logged_assistant_text
  · exact Or.inl (by simp [flushAssistant_case_dup s h0 h1])
  · exact Or.inr ⟨by simp [flushAssistant_case_log s h0 h1], h0, h1⟩

theorem flushUser_clears (s : LoopState) (h : pyStrip s.current_turn_user_text ≠ "") :
    (flushUser s).1.current_turn_user_text = "" ∧ (flushUser s).1.user_speech_buffer = "" := by
  by_cases h1 : pyStrip s.current_turn_user_text = s.last_logged_user_text
  · simp [flushUser_case_dup s h h1]
  · simp [flushUser_case_log s h h1]

theorem flushAssistant_clears (s : LoopState)
    (h : pyStrip s.current_turn_assistant_text ≠ "") :
    (flushAssistant s).1.current_turn_assistant_text = ""
    ∧ (flushAssistant s).1.current_text_buffer = "" := by
  by_cases h1 : pyStrip s.current_turn_assistant_text = s.last_logged_assistant_text
  · simp [flushAssistant_case_dup s h h1]
  · simp [flushAssistant_case_log s h h1]

theorem interrupt_of_open_gate (an : String) (s : LoopState) (ut : String)
    (hs : s.is_assistant_speaking = true) (hm : s.is_muted = false)
    (hmatch : matchesStopPhrase (pyLower an) (pyLower ut) = true) :
    handle_input_transcription an s ut =
      ({ s with user_speech_buffer := ut, current_turn_user_text := ut,
                should_stop_speaking := true, is_assistant_speaking := false,
                audio_in_queue := [] }, FragmentOutcome.interrupted) := by
  simp [handle_input_transcription, hs, hm, hmatch]

theorem ignored_of_open_gate (an : String) (s : LoopState) (ut : String)
    (hs : s.is_assistant_speaking = true) (hm : s.is_muted = false)
    (hmatch : matchesStopPhrase (pyLower an) (pyLower ut) = false) :
    handle_input_transcription an s ut =
      ({ s with user_speech_buffer := ut, current_turn_user_text := ut },
       FragmentOutcome.ignoredWhileSpeaking) := by
  simp [handle_input_transcription, hs, hm, hmatch]

theorem shutdown_of_closed_gate (an : String) (s : LoopState) (ut : String)
    (h : s.is_assistant_speaking = false ∨ s.is_muted = true)
    (hp : (pyContains "shutdown friday" (pyLower ut)
           || pyContains "exit friday" (pyLower ut)) = true) :
    handle_input_transcription an s ut =
      ({ s with user_speech_buffer := ut, current_turn_user_text := ut,
                shutdown_initiated := true }, FragmentOutcome.shutdownCommand) := by
  rcases h with h | h <;> simp [handle_input_transcription, h, hp]

theorem accumulated_of_closed_gate (an : String) (s : LoopState) (ut : String)
    (h : s.is_assistant_speaking = false ∨ s.is_muted = true)
    (hp : (pyContains "shutdown friday" (pyLower ut)
           || pyContains "exit friday" (pyLower ut)) = false) :
    handle_input_transcription an s ut =
      ({ s with user_speech_buffer := ut, current_turn_user_text := ut },
       FragmentOutcome.accumulated) := by
  rcases h with h | h <;> simp [handle_input_transcription, h, hp]

theorem handle_fragment_keeps_user_accumulator (an : String) (s : LoopState) (ut : String) :
    (handle_input_transcription an s ut).1.current_turn_user_text = ut
    ∧ (handle_input_transcription an s ut).1.last_logged_user_text = s.last_logged_user_text
    ∧ (handle_input_transcription an s ut).1.current_turn_assistant_text
        = s.current_turn_assistant_text := by
  dsimp only [handle_input_transcription]
  split_ifs <;> simp

theorem interrupt_iff_gate_and_match (an : String) (s : LoopState) (ut : String) :
    (handle_input_transcription an s ut).2 = FragmentOutcome.interrupted ↔
      (s.is_assistant_speaking = true ∧ s.is_muted = false
       ∧ matchesStopPhrase (pyLower an) (pyLower ut) = true) := by
  dsimp only [handle_input_transcription]
  split_ifs with h1 h2 h3 <;>
    simp_all [Bool.and_eq_true, Bool.not_eq_true']

/-! ## Claim theorems -/

/-- Claim C1 (amended): for every function call in a tool-call event, at
most one tool-response event is transmitted, and every transmitted event
references the call identifier and name; exactly one response is
transmitted when the off-loop dispatch returns a result and the
transmission succeeds; when the dispatch raises, or the transmission path
errors, the exception is caught and no response event is transmitted for
that call. -/
theorem tool_call_response_discipline (function_id function_name : String)
    (dispatch : Except String ToolResult)
    (send : ToolResponseEvent → Except String Unit) :
    (handle_function_call function_id function_name dispatch send).length ≤ 1
    ∧ (∀ ev ∈ handle_function_call function_id function_name dispatch send,
        ev.id = function_id ∧ ev.name = function_name)
    ∧ (∀ r, dispatch = .ok r → send ⟨function_id, function_name, r⟩ = .ok () →
        handle_function_call function_id function_name dispatch send =
          [⟨function_id, function_name, r⟩])
    ∧ (∀ e, dispatch = .error e →
        handle_function_call function_id function_name dispatch send = [])
    ∧ (∀ r e, dispatch = .ok r → send ⟨function_id, function_name, r⟩ = .error e →
        handle_function_call function_id function_name dispatch send = []) := by
  cases dispatch with
  | error e => simp [handle_function_call]
  | ok r =>
      cases hsend : send ⟨function_id, function_name, r⟩ with
      | ok u =>
          refine ⟨by simp [handle_function_call, hsend], ?_, ?_, by simp, ?_⟩
          · intro ev hev
            simp [handle_function_call, hsend] at hev
            simp [hev]
          · intro r' hr' hs'
            obtain rfl : r = r' := by simpa using hr'
            simp [handle_function_call, hsend]
          · intro r' e hr' hs'
            obtain rfl : r = r' := by simpa using hr'
            rw [hsend] at hs'
            cases hs'
      | error e =>
          refine ⟨by simp [handle_function_call, hsend], ?_, ?_, by simp, ?_⟩
          · intro ev hev
            simp [handle_function_call, hsend] at hev
          · intro r' hr' hs'
            obtain rfl : r = r' := by simpa using hr'
            rw [hsend] at hs'
            cases hs'
          · intro r' e' hr' hs'
            simp [handle_function_call, hsend]

/-- Witness for C1 (amended): a successful dispatch with a successful
transmission yields exactly the one response event for the call. -/
theorem tool_call_response_discipline_witness :
    handle_function_call "call-7" "get_weather"
        (Except.ok { status := "success", message := "sunny" })
        (fun _ => Except.ok ()) =
      [⟨"call-7", "get_weather", { status := "success", message := "sunny" }⟩] :=
  (tool_call_response_discipline "call-7" "get_weather"
      (Except.ok { status := "success", message := "sunny" })
      (fun _ => Except.ok ())).2.2.1
    { status := "success", message := "sunny" } rfl rfl

/-- Counterexample to C1 as stated: when the transmission of the response
errors, the exception handler at src/main.py lines 1510-1512 only logs, so
the observed call receives zero responses, not exactly one. -/
theorem tool_call_response_lost_on_send_error :
    handle_function_call "call-1" "get_weather"
        (Except.ok { status := "success", message := "sunny" })
        (fun _ => Except.error "connection closed") = []
    ∧ (handle_function_call "call-1" "get_weather"
        (Except.ok { status := "success", message := "sunny" })
        (fun _ => Except.error "connection closed")).length ≠ 1 :=
  ⟨rfl, by simp [handle_function_call]⟩
/-- Claim C2: tool dispatch is total.  For every function name and every
argument value, a name outside the registry yields a result with status
`error`, and a handler-raised exception is converted at the dispatch
boundary into a result with status `error` whose message contains the
exception text. -/
theorem execute_tool_total_error_handling {Args : Type}
    (handlers : String → Args → Except String ToolResult)
    (function_name : String) (args : Args) :
    (function_name ∉ knownToolNames →
      (execute_tool handlers function_name args).status = "error")
    ∧ (function_name ∈ knownToolNames → ∀ e, handlers function_name args = .error e →
      (execute_tool handlers function_name args).status = "error"
      ∧ e.data <:+: (execute_tool handlers function_name args).message.data) := by
  constructor
  · intro hnotin
    simp [execute_tool, hnotin]
  · intro hin e he
    refine ⟨by simp [execute_tool, hin, he], ?_⟩
    simp only [execute_tool, hin, if_pos, he]
    refine List.IsSuffix.isInfix ?_
    show e.data <:+ (("Error executing " ++ function_name ++ ": ") ++ e).data
    refine ⟨("Error executing " ++ function_name ++ ": ").data, ?_⟩
    simp [String.data_append]


/-- Witness for C2: an unknown name gives a status=error result, and a
registered handler raising `boom` gives a status=error result whose
message contains `boom`. -/
theorem execute_tool_total_error_handling_witness :
    (execute_tool (fun _ _ => Except.error "boom") "nonexistent_tool" (0 : Nat)).status
        = "error"
    ∧ (execute_tool (fun _ _ => Except.error "boom") "get_weather" (0 : Nat)).status
        = "error"
    ∧ "boom".data <:+:
        (execute_tool (fun _ _ => Except.error "boom") "get_weather" (0 : Nat)).message.data :=
  ⟨(execute_tool_total_error_handling (fun _ _ => Except.error "boom")
      "nonexistent_tool" 0).1 (by decide),
   ((execute_tool_total_error_handling (fun _ _ => Except.error "boom")
      "get_weather" 0).2 (by decide) "boom" rfl).1,
   ((execute_tool_total_error_handling (fun _ _ => Except.error "boom")
      "get_weather" 0).2 (by decide) "boom" rfl).2⟩

/-- Claim C3 (amended): for every turn-completion flush, at most one user
and at most one assistant transcript line are logged; every logged line
carries the full stripped accumulated text of its side, never a fragment;
a repeat of the previously logged text for a side is suppressed; and each
accumulator pair is cleared whenever its stripped content is non-empty (a
whitespace-only accumulator is left unchanged by the flush). -/
theorem turn_flush_transcript_discipline (s : LoopState) :
    ((flushTurn s).2.countP (fun l => decide (l.role = Role.user)) ≤ 1)
    ∧ ((flushTurn s).2.countP (fun l => decide (l.role = Role.assistant)) ≤ 1)
    ∧ (∀ l ∈ (flushTurn s).2,
        (l.role = Role.user → l.content = pyStrip s.current_turn_user_text)
        ∧ (l.role = Role.assistant → l.content = pyStrip s.current_turn_assistant_text))
    ∧ (pyStrip s.current_turn_user_text = s.last_logged_user_text →
        ∀ l ∈ (flushTurn s).2, l.role = Role.assistant)
    ∧ (pyStrip s.current_turn_assistant_text = s.last_logged_assistant_text →
        ∀ l ∈ (flushTurn s).2, l.role = Role.user)
    ∧ (pyStrip s.current_turn_user_text ≠ "" →
        (flushTurn s).1.current_turn_user_text = ""
        ∧ (flushTurn s).1.user_speech_buffer = "")
    ∧ (pyStrip s.current_turn_assistant_text ≠ "" →
        (flushTurn s).1.current_turn_assistant_text = ""
        ∧ (flushTurn s).1.current_text_buffer = "") := by
  have hA := flushUser_keeps_assistant_fields s
  have hK := flushAssistant_keeps_user_fields (flushUser s).1
  have hu := flushUser_lines s
  have ha := flushAssistant_lines (flushUser s).1
  rw [hA.1, hA.2.2] at ha
  have hlines : (flushTurn s).2 = (flushUser s).2 ++ (flushAssistant (flushUser s).1).2 := by
    rw [flushTurn_eq]
  refine ⟨?_, ?_, ?_, ?_, ?_, ?_, ?_⟩
  · rcases hu with hu | ⟨hu, _, _⟩ <;> rcases ha with ha | ⟨ha, _, _⟩ <;>
      simp [hlines, hu, ha]
  · rcases hu with hu | ⟨hu, _, _⟩ <;> rcases ha with ha | ⟨ha, _, _⟩ <;>
      simp [hlines, hu, ha]
  · intro l hl
    rw [hlines] at hl
    rcases hu with hu | ⟨hu, _, _⟩ <;> rcases ha with ha | ⟨ha, _, _⟩ <;>
      rw [hu, ha] at hl
    · simp at hl
    · simp at hl
      subst hl
      simp
    · simp at hl
      subst hl
      simp
    · simp at hl
      rcases hl with rfl | rfl <;> simp
  · intro hdup l hl
    rw [hlines] at hl
    have husr : (flushUser s).2 = [] := by
      rcases hu with hu | ⟨_, _, hne⟩
      · exact hu
      · exact absurd hdup hne
    rw [husr] at hl
    rcases ha with ha | ⟨ha, _, _⟩ <;> rw [ha] at hl
    · simp at hl
    · simp at hl
      simp [hl]
  · intro hdup l hl
    rw [hlines] at hl
    have hasr : (flushAssistant (flushUser s).1).2 = [] := by
      rcases ha with ha | ⟨_, _, hne⟩
      · exact ha
      · exact absurd hdup hne
    rw [hasr] at hl
    rcases hu with hu | ⟨hu, _, _⟩ <;> rw [hu] at hl
    · simp at hl
    · simp at hl
      simp [hl]
  · intro h
    have hc := flushUser_clears s h
    constructor
    · rw [flushTurn_eq]
      exact hK.1.trans hc.1
    · rw [flushTurn_eq]
      exact hK.2.1.trans hc.2
  · intro h
    have hc := flushAssistant_clears (flushUser s).1 (by rw [hA.1]; exact h)
    constructor
    · rw [flushTurn_eq]
      exact hc.1
    · rw [flushTurn_eq]
      exact hc.2

/-- Witness for C3 (amended): a turn with user accumulator containing
spaces around `hi` and an empty assistant accumulator clears the user
accumulators, and the flush logs only user lines. -/
theorem turn_flush_transcript_discipline_witness :
    ((flushTurn { initLoopState with current_turn_user_text := " hi " }).1.current_turn_user_text
        = ""
      ∧ (flushTurn { initLoopState with
          current_turn_user_text := " hi " }).1.user_speech_buffer = "")
    ∧ (∀ l ∈ (flushTurn { initLoopState with current_turn_user_text := " hi " }).2,
        l.role = Role.user) :=
  ⟨(turn_flush_transcript_discipline
      { initLoopState with current_turn_user_text := " hi " }).2.2.2.2.2.1 (by decide),
   (turn_flush_transcript_discipline
      { initLoopState with current_turn_user_text := " hi " }).2.2.2.2.1 (by decide)⟩

/-- Counterexample to C3 as stated: a whitespace-only accumulator is not
cleared by the end-of-turn flush (the clearing sits inside the non-blank
branch, src/main.py lines 1559-1561 and 1593-1595). -/
theorem turn_flush_leaves_blank_accumulators :
    (flushTurn { initLoopState with
        current_turn_user_text := " " }).1.current_turn_user_text ≠ ""
    ∧ (flushTurn { initLoopState with
        current_turn_assistant_text := "\n" }).1.current_turn_assistant_text ≠ "" := by
  decide

/-- Claim C4 (amended): a stop phrase in an input-transcription fragment
is recognized only when the assistant is speaking and the mic is unmuted;
when recognized, the stop-speaking flag is set, the assistant is marked
not speaking, all queued inbound audio is purged, and the per-fragment
processing is skipped — but the fragment remains in the turn accumulator
and is logged as the user line of the turn at the next flush (unless
blank, overwritten by a later fragment, or equal to the last logged user
text). -/
theorem voice_interrupt_rule (assistantname : String) (s : LoopState) (ut : String) :
    ((handle_input_transcription assistantname s ut).2 = FragmentOutcome.interrupted →
      s.is_assistant_speaking = true ∧ s.is_muted = false
      ∧ (handle_input_transcription assistantname s ut).1.should_stop_speaking = true
      ∧ (handle_input_transcription assistantname s ut).1.is_assistant_speaking = false
      ∧ (handle_input_transcription assistantname s ut).1.audio_in_queue = []
      ∧ (handle_input_transcription assistantname s ut).1.current_turn_user_text = ut)
    ∧ (s.is_assistant_speaking = true → s.is_muted = false →
        matchesStopPhrase (pyLower assistantname) (pyLower ut) = true →
        (handle_input_transcription assistantname s ut).2 = FragmentOutcome.interrupted)
    ∧ ((handle_input_transcription assistantname s ut).2 = FragmentOutcome.interrupted →
        pyStrip ut ≠ "" → pyStrip ut ≠ s.last_logged_user_text →
        ⟨Role.user, pyStrip ut⟩ ∈
          (flushTurn (handle_input_transcription assistantname s ut).1).2) := by
  refine ⟨?_, ?_, ?_⟩
  · intro hout
    obtain ⟨hs, hm, hmatch⟩ := (interrupt_iff_gate_and_match assistantname s ut).1 hout
    rw [interrupt_of_open_gate assistantname s ut hs hm hmatch]
    exact ⟨hs, hm, rfl, rfl, rfl, rfl⟩
  · intro hs hm hmatch
    rw [interrupt_of_open_gate assistantname s ut hs hm hmatch]
  · intro hout hne hdiff
    have hacc := handle_fragment_keeps_user_accumulator assistantname s ut
    have hu := flushUser_case_log (handle_input_transcription assistantname s ut).1
      (by rw [hacc.1]; exact hne) (by rw [hacc.1, hacc.2.1]; exact hdiff)
    rw [flushTurn_eq, hu]
    rw [hacc.1]
    exact List.mem_append_left _ (by simp)

/-- Witness for C4 (amended): with the assistant speaking unmuted, the
fragment `friday stop` is recognized as an interrupt, and is then logged
as the user line of the turn by the flush. -/
theorem voice_interrupt_rule_witness :
    (handle_input_transcription "Friday"
        { initLoopState with is_assistant_speaking := true, is_muted := false }
        "friday stop").2 = FragmentOutcome.interrupted
    ∧ ⟨Role.user, pyStrip "friday stop"⟩ ∈
        (flushTurn (handle_input_transcription "Friday"
          { initLoopState with is_assistant_speaking := true, is_muted := false }
          "friday stop").1).2 :=
  ⟨(voice_interrupt_rule "Friday"
      { initLoopState with is_assistant_speaking := true, is_muted := false }
      "friday stop").2.1 rfl rfl (by decide),
   (voice_interrupt_rule "Friday"
      { initLoopState with is_assistant_speaking := true, is_muted := false }
      "friday stop").2.2
    ((voice_interrupt_rule "Friday"
      { initLoopState with is_assistant_speaking := true, is_muted := false }
      "friday stop").2.1 rfl rfl (by decide)) (by decide) (by decide)⟩

/-- Counterexample to C4 as stated: the honored stop fragment is written
into the turn accumulator before the gate (src/main.py lines 1436-1437)
and the interrupt branch never clears it, so the end-of-turn flush logs
`friday stop` as a conversational user line. -/
theorem interrupt_fragment_logged_as_user_turn :
    (handle_input_transcription "Friday"
        { initLoopState with is_assistant_speaking := true, is_muted := false }
        "friday stop").2 = FragmentOutcome.interrupted
    ∧ (flushTurn (handle_input_transcription "Friday"
        { initLoopState with is_assistant_speaking := true, is_muted := false }
        "friday stop").1).2 = [⟨Role.user, "friday stop"⟩] := by
  decide

/-- Claim C5 (amended): an input-transcription fragment that arrives while
the assistant is speaking and is not an honored stop command is not acted
on in that iteration — when the mic is unmuted and no stop phrase matches
the fragment is skipped as ignored-while-speaking, and when the mic is
muted the stop gate is bypassed entirely — but the fragment is NOT
discarded: it overwrites the user-turn accumulator, and is logged as the
user transcript line at the next flush unless blank, overwritten, or equal
to the last logged user text. -/
theorem while_speaking_fragment_handling (assistantname : String) (s : LoopState)
    (ut : String) :
    (s.is_assistant_speaking = true → s.is_muted = false →
      matchesStopPhrase (pyLower assistantname) (pyLower ut) = false →
      handle_input_transcription assistantname s ut =
        ({ s with user_speech_buffer := ut, current_turn_user_text := ut },
         FragmentOutcome.ignoredWhileSpeaking))
    ∧ (s.is_muted = true →
      (pyContains "shutdown friday" (pyLower ut)
       || pyContains "exit friday" (pyLower ut)) = false →
      handle_input_transcription assistantname s ut =
        ({ s with user_speech_buffer := ut, current_turn_user_text := ut },
         FragmentOutcome.accumulated))
    ∧ ((handle_input_transcription assistantname s ut).1.current_turn_user_text = ut
       ∧ (handle_input_transcription assistantname s ut).1.last_logged_user_text
           = s.last_logged_user_text)
    ∧ (pyStrip ut ≠ "" → pyStrip ut ≠ s.last_logged_user_text →
        ⟨Role.user, pyStrip ut⟩ ∈
          (flushTurn (handle_input_transcription assistantname s ut).1).2) := by
  refine ⟨?_, ?_, ?_, ?_⟩
  · intro hs hm hmatch
    exact ignored_of_open_gate assistantname s ut hs hm hmatch
  · intro hm hp
    exact accumulated_of_closed_gate assistantname s ut (Or.inr hm) hp
  · exact ⟨(handle_fragment_keeps_user_accumulator assistantname s ut).1,
      (handle_fragment_keeps_user_accumulator assistantname s ut).2.1⟩
  · intro hne hdiff
    have hacc := handle_fragment_keeps_user_accumulator assistantname s ut
    have hu := flushUser_case_log (handle_input_transcription assistantname s ut).1
      (by rw [hacc.1]; exact hne) (by rw [hacc.1, hacc.2.1]; exact hdiff)
    rw [flushTurn_eq, hu]
    rw [hacc.1]
    exact List.mem_append_left _ (by simp)

/-- Witness for C5 (amended): while speaking and unmuted, a non-stop
fragment is left as ignored-while-speaking with only the user buffers
touched, and the fragment is later logged by the flush. -/
theorem while_speaking_fragment_handling_witness :
    handle_input_transcription "Friday"
        { initLoopState with is_assistant_speaking := true, is_muted := false }
        "what is the weather" =
      ({ initLoopState with
          is_assistant_speaking := true
          is_muted := false
          user_speech_buffer := "what is the weather"
          current_turn_user_text := "what is the weather" },
       FragmentOutcome.ignoredWhileSpeaking)
    ∧ ⟨Role.user, pyStrip "what is the weather"⟩ ∈
        (flushTurn (handle_input_transcription "Friday"
          { initLoopState with is_assistant_speaking := true, is_muted := false }
          "what is the weather").1).2 :=
  ⟨(while_speaking_fragment_handling "Friday"
      { initLoopState with is_assistant_speaking := true, is_muted := false }
      "what is the weather").1 rfl rfl (by decide),
   (while_speaking_fragment_handling "Friday"
      { initLoopState with is_assistant_speaking := true, is_muted := false }
      "what is the weather").2.2.2 (by decide) (by decide)⟩

/-- Counterexample to C5 as stated: with the assistant speaking and the
mic muted, the stop phrase is not honored (consistent with the claim), but
the fragment is not discarded — the end-of-turn flush logs it as a
conversational user line. -/
theorem muted_suppressed_fragment_still_logged :
    (handle_input_transcription "Friday"
        { initLoopState with is_assistant_speaking := true, is_muted := true }
        "friday stop").2 = FragmentOutcome.accumulated
    ∧ (flushTurn (handle_input_transcription "Friday"
        { initLoopState with is_assistant_speaking := true, is_muted := true }
        "friday stop").1).2 = [⟨Role.user, "friday stop"⟩] := by
  decide

/-- Claim C6 (code bug): the inline comment at src/main.py line 1464 says
the shutdown commands work anytime, but the `continue` statements of the
voice-interrupt branch (lines 1458 and 1462) make the shutdown check
unreachable whenever the assistant is speaking with the mic unmuted: the
fragment `shutdown friday` is then merely ignored and no shutdown is
initiated, while the same fragment does initiate shutdown once the gate is
closed (here: idle and muted). -/
theorem shutdown_command_gated_by_interrupt_branch :
    (handle_input_transcription "Friday"
        { initLoopState with is_assistant_speaking := true, is_muted := false }
        "shutdown friday").2 = FragmentOutcome.ignoredWhileSpeaking
    ∧ (handle_input_transcription "Friday"
        { initLoopState with is_assistant_speaking := true, is_muted := false }
        "shutdown friday").1.shutdown_initiated = false
    ∧ (handle_input_transcription "Friday" initLoopState "shutdown friday").2
        = FragmentOutcome.shutdownCommand
    ∧ (handle_input_transcription "Friday" initLoopState
        "shutdown friday").1.shutdown_initiated = true := by
  decide

/-- Claim C7 (code bug): the claim demands that the shutdown flush log
every pending accumulator exactly once for both sides, and the method
docstring promises that nothing is lost; but with both a user text and an
assistant text pending, the user block logs its line and then the append
to the never-initialized `all_user_messages` raises, the enclosing
`try/except` swallows the error, and the pending assistant text is never
logged — it is lost.  With only the user text pending (the scenario of
the claim) the flush does log exactly one line. -/
theorem shutdown_flush_loses_pending_assistant_text :
    save_final_chatlogs { initLoopState with
        current_turn_user_text := "turn on the lights"
        user_speech_buffer := "turn on the lights"
        current_turn_assistant_text := "Okay, turning them on"
        current_text_buffer := "Okay, turning them on" } =
      [⟨Role.user, "turn on the lights"⟩]
    ∧ (save_final_chatlogs { initLoopState with
        current_turn_user_text := "turn on the lights"
        user_speech_buffer := "turn on the lights"
        current_turn_assistant_text := "Okay, turning them on"
        current_text_buffer := "Okay, turning them on" }).countP
          (fun l => decide (l.role = Role.assistant)) = 0
    ∧ save_final_chatlogs { initLoopState with
        current_turn_user_text := "turn on the lights"
        user_speech_buffer := "turn on the lights" } =
      [⟨Role.user, "turn on the lights"⟩] := by
  decide

/-- Claim C8 (amended): through the awaitable `set_mute_state`, a burst
whose first request arrives at least 200 ms after the previously applied
change has exactly that first request applied; every later request of the
burst (within 200 ms of it) is rejected with the
`Too frequent toggles` indication and changes nothing, and after the
applied change the in-memory and durable mute states agree (both equal
the requested value).  The synchronous variant is not debounced. -/
theorem set_mute_state_rejected_of_window (s : MuteStore) (m : Bool) (t : ℚ)
    (h : t - s.last_state_change < 1/5) :
    set_mute_state s m t = (s, SetMuteResult.rejected "Too frequent toggles" s.is_muted) := by
  unfold set_mute_state
  rw [if_pos h]

theorem set_mute_state_applied_of_elapsed (s : MuteStore) (m : Bool) (t : ℚ)
    (h : ¬ (t - s.last_state_change < 1/5)) :
    set_mute_state s m t =
      ({ is_muted := m, file_muted := m, last_state_change := t },
       SetMuteResult.applied s.is_muted m) := by
  unfold set_mute_state
  rw [if_neg h]

theorem set_mute_state_debounce_burst (st : MuteStore) (t0 : ℚ) (m0 : Bool)
    (rest : List (ℚ × Bool))
    (h0 : ¬ (t0 - st.last_state_change < 1/5))
    (hrest : ∀ p ∈ rest, p.1 - t0 < 1/5) :
    applyMuteRequests st ((t0, m0) :: rest) =
      ({ is_muted := m0, file_muted := m0, last_state_change := t0 },
       SetMuteResult.applied st.is_muted m0 ::
         rest.map (fun _ => SetMuteResult.rejected "Too frequent toggles" m0)) := by
  have hstep := set_mute_state_applied_of_elapsed st m0 t0 h0
  have hall : ∀ (rest' : List (ℚ × Bool)), (∀ p ∈ rest', p.1 - t0 < 1/5) →
      applyMuteRequests
          { is_muted := m0, file_muted := m0, last_state_change := t0 } rest' =
        ({ is_muted := m0, file_muted := m0, last_state_change := t0 },
         rest'.map (fun _ => SetMuteResult.rejected "Too frequent toggles" m0)) := by
    intro rest'
    induction rest' with
    | nil => intro _; rfl
    | cons p tail ih =>
        intro hp
        obtain ⟨t, m⟩ := p
        have h1 : t - t0 < 1/5 := hp (t, m) (List.mem_cons_self _ _)
        have h2 := ih (fun q hq => hp q (List.mem_cons_of_mem _ hq))
        have hr := set_mute_state_rejected_of_window
          { is_muted := m0, file_muted := m0, last_state_change := t0 } m t h1
        simp only [applyMuteRequests, hr, h2, List.map]
  simp only [applyMuteRequests, hstep, hall rest hrest]

/-- Witness for C8 (amended): starting muted with the last change at time
0, a request at time 1 is applied and a request 100 ms later is rejected;
the final in-memory and durable states agree on unmuted. -/
theorem set_mute_state_debounce_burst_witness :
    applyMuteRequests ⟨true, true, 0⟩ [(1, false), (11/10, true)] =
      (⟨false, false, 1⟩,
       [SetMuteResult.applied true false,
        SetMuteResult.rejected "Too frequent toggles" false]) := by
  have h := set_mute_state_debounce_burst ⟨true, true, 0⟩ 1 false [(11/10, true)]
    (by norm_num) (by intro p hp; simp at hp; subst hp; norm_num)
  simpa using h

/-- Counterexample to C8 as stated: a sequence of requests all arriving
within 200 ms of the previously applied change (timestamp 10) has zero
requests applied — not exactly one — and both are rejected leaving the
store unchanged; the claim quantifier also covers
`set_mute_state_sync`, which applies a second change inside the window
instead of rejecting it. -/
theorem mute_burst_inside_window_none_applied :
    applyMuteRequests ⟨false, false, 10⟩ [(201/20, true), (101/10, true)] =
      (⟨false, false, 10⟩,
       [SetMuteResult.rejected "Too frequent toggles" false,
        SetMuteResult.rejected "Too frequent toggles" false])
    ∧ (set_mute_state_sync (set_mute_state_sync ⟨false, false, 10⟩ true).1 false).1.is_muted
        = false := by
  constructor
  · have h1 := set_mute_state_rejected_of_window ⟨false, false, 10⟩ true (201/20)
      (by norm_num)
    have h2 := set_mute_state_rejected_of_window ⟨false, false, 10⟩ true (101/10)
      (by norm_num)
    simp only [applyMuteRequests, h1, h2]
  · rfl

/-- Claim C9: the transmitter never sends a dequeued frame when the gate
is closed at send time — whenever the mic is muted or the assistant is
speaking at the moment the dequeued frame is examined, the frame is
dropped, not sent. -/
theorem send_gate_rechecked_before_transmission {Frame : Type} (s : SendState)
    (msg : Frame) (h : s.is_muted = true ∨ s.is_assistant_speaking = true) :
    send_realtime_step s msg = none := by
  rcases h with h | h <;> simp [send_realtime_step, h]

/-- Witness for C9: a muted state drops the dequeued frame. -/
theorem send_gate_rechecked_before_transmission_witness :
    send_realtime_step ⟨true, false, true⟩ (0 : Nat) = none :=
  send_gate_rechecked_before_transmission ⟨true, false, true⟩ 0 (Or.inl rfl)

theorem stop_suffix_of_phrase (assistantname : String) :
    ∀ p ∈ stop_phrases assistantname, "stop".data <:+ p.data := by
  intro p hp
  simp [stop_phrases] at hp
  rcases hp with rfl | rfl | rfl | rfl
  · exact List.suffix_refl _
  · have h1 : "stop".data <:+ " stop".data := by decide
    have h2 : " stop".data <:+ assistantname.data ++ " stop".data :=
      List.suffix_append _ _
    have h3 := h1.trans h2
    rw [String.data_append]
    exact h3
  · decide
  · decide

/-- Claim C10: stop-phrase recognition is substring-based over the
lowercased fragment and the phrase list includes the bare word `stop`, so
the match succeeds exactly when the lowercased fragment contains `stop`
anywhere — and while the assistant speaks unmuted any such fragment
triggers the voice interrupt, not only assistant-name + stop. -/
theorem stop_phrase_substring_matching (assistantname : String) (s : LoopState)
    (ut : String) :
    (matchesStopPhrase (pyLower assistantname) (pyLower ut) = true ↔
      "stop".data <:+: (pyLower ut).data)
    ∧ (s.is_assistant_speaking = true → s.is_muted = false →
        "stop".data <:+: (pyLower ut).data →
        (handle_input_transcription assistantname s ut).2
          = FragmentOutcome.interrupted) := by
  have hiff : matchesStopPhrase (pyLower assistantname) (pyLower ut) = true ↔
      "stop".data <:+: (pyLower ut).data := by
    constructor
    · intro h
      rw [matchesStopPhrase, List.any_eq_true] at h
      obtain ⟨p, hp, hcont⟩ := h
      have h1 : p.data <:+: (pyLower ut).data := by
        simpa [pyContains] using hcont
      exact ((stop_suffix_of_phrase (pyLower assistantname) p hp).isInfix).trans h1
    · intro h
      rw [matchesStopPhrase, List.any_eq_true]
      exact ⟨"stop", by simp [stop_phrases], by simpa [pyContains] using h⟩
  refine ⟨hiff, ?_⟩
  intro hs hm hinf
  exact (interrupt_iff_gate_and_match assistantname s ut).2 ⟨hs, hm, hiff.2 hinf⟩

/-- Witness for C10: the fragment `Stopwatch timer, please` contains
`stop` inside a longer word, and while the assistant speaks unmuted it
triggers the voice interrupt. -/
theorem stop_phrase_substring_matching_witness :
    (handle_input_transcription "Friday"
        { initLoopState with is_assistant_speaking := true, is_muted := false }
        "Stopwatch timer, please").2 = FragmentOutcome.interrupted :=
  (stop_phrase_substring_matching "Friday"
      { initLoopState with is_assistant_speaking := true, is_muted := false }
      "Stopwatch timer, please").2 rfl rfl (by decide)
